import Mathlib

/-!
# Verification of the burg-toolkit gripper actuation and mount-control subsystem

Shallow embedding of `src/burg_toolkit/gripper/base.py`,
`src/burg_toolkit/gripper_module/gripper_robotiq_2f_140.py` and
`src/burg_toolkit/gripper_module/wsg_32.py`, together with proofs of the
specification claims about them.

Real-valued quantities of the Python code are modelled over `ℚ` (the constants
appearing in the code are all decimal literals), except for the fixed
orientation offsets, whose quaternion components involve `√2/2`; those live in
the computable quadratic extension `Q2 = ℚ[√2]` defined below.
-/

namespace BurgToolkit

/-! ## The ring `ℚ[√2]`

The orientation offset of both gripper variants is
`getQuaternionFromEuler([π, 0, π/2])`, whose components are `0` and `√2/2`.
`Q2` represents `a + b·√2` with `a b : ℚ`, exactly and computably. -/

/-- An element `a + b·√2` of `ℚ[√2]`. -/
structure Q2 where
  a : ℚ
  b : ℚ
deriving DecidableEq

namespace Q2

theorem ext_iff' (x y : Q2) : x = y ↔ x.a = y.a ∧ x.b = y.b := by
  cases x; cases y; simp

def add (x y : Q2) : Q2 := ⟨x.a + y.a, x.b + y.b⟩

def mul (x y : Q2) : Q2 := ⟨x.a * y.a + 2 * (x.b * y.b), x.a * y.b + x.b * y.a⟩

def neg (x : Q2) : Q2 := ⟨-x.a, -x.b⟩

instance : Zero Q2 := ⟨⟨0, 0⟩⟩
instance : One Q2 := ⟨⟨1, 0⟩⟩
instance : Add Q2 := ⟨add⟩
instance : Mul Q2 := ⟨mul⟩
instance : Neg Q2 := ⟨neg⟩

theorem add_def (x y : Q2) : x + y = ⟨x.a + y.a, x.b + y.b⟩ := rfl
theorem mul_def (x y : Q2) :
    x * y = ⟨x.a * y.a + 2 * (x.b * y.b), x.a * y.b + x.b * y.a⟩ := rfl
theorem neg_def (x : Q2) : -x = ⟨-x.a, -x.b⟩ := rfl
theorem zero_def : (0 : Q2) = ⟨0, 0⟩ := rfl
theorem one_def : (1 : Q2) = ⟨1, 0⟩ := rfl

instance : CommRing Q2 where
  add_assoc x y z := by simp [add_def, ext_iff']; constructor <;> ring
  zero_add x := by simp [add_def, zero_def, ext_iff']
  add_zero x := by simp [add_def, zero_def, ext_iff']
  add_comm x y := by simp [add_def, ext_iff']; constructor <;> ring
  left_distrib x y z := by simp [add_def, mul_def, ext_iff']; constructor <;> ring
  right_distrib x y z := by simp [add_def, mul_def, ext_iff']; constructor <;> ring
  zero_mul x := by simp [mul_def, zero_def, ext_iff']
  mul_zero x := by simp [mul_def, zero_def, ext_iff']
  mul_assoc x y z := by simp [mul_def, ext_iff']; constructor <;> ring
  one_mul x := by simp [mul_def, one_def, ext_iff']
  mul_one x := by simp [mul_def, one_def, ext_iff']
  mul_comm x y := by simp [mul_def, ext_iff']; constructor <;> ring
  neg_add_cancel x := by simp [add_def, neg_def, zero_def, ext_iff']
  nsmul n x := ⟨n * x.a, n * x.b⟩
  nsmul_zero x := by simp [zero_def, ext_iff']
  nsmul_succ n x := by simp [add_def, ext_iff']; constructor <;> ring
  zsmul n x := ⟨n * x.a, n * x.b⟩
  zsmul_zero' x := by simp [zero_def, ext_iff']
  zsmul_succ' n x := by simp [add_def, ext_iff']; constructor <;> push_cast <;> ring
  zsmul_neg' n x := by simp [neg_def, ext_iff']; constructor <;> push_cast <;> ring

theorem sub_def (x y : Q2) : x - y = ⟨x.a - y.a, x.b - y.b⟩ := by
  show x + -y = _
  simp [add_def, neg_def]; constructor <;> ring

/-- Embedding of the rationals into `ℚ[√2]`. -/
def qr (r : ℚ) : Q2 := ⟨r, 0⟩

/-- The constant `√2/2` (i.e. `sin(π/4) = cos(π/4)`), as an element of `ℚ[√2]`. -/
def sqrt2div2 : Q2 := ⟨0, 1/2⟩

theorem qr_mul (r s : ℚ) : qr r * qr s = qr (r * s) := by
  simp [qr, mul_def, ext_iff']

theorem qr_add (r s : ℚ) : qr r + qr s = qr (r + s) := by
  simp [qr, add_def, ext_iff']

end Q2

open Q2

/-! ## Pose transform utility (C2)

`GripperBase._get_pos_orn_from_grasp_pose` (src/burg_toolkit/gripper/base.py,
lines 58–70) computes
`gripper_pose = grasp_pose @ util.tf_from_pos_quat(pos_offset, orn_offset)`.
The helper module `burg_toolkit/util.py` is not part of the provided sources,
so the two helpers it supplies are modelled from the spec below.  Poses are
4×4 homogeneous transformation matrices. -/

/-- A quaternion in pybullet's `[x, y, z, w]` component order. -/
structure Quat where
  x : Q2
  y : Q2
  z : Q2
  w : Q2

/-- Rotation matrix of a (unit) quaternion, standard formula, `[x,y,z,w]` order.
The rational scalars `1` and `2` of the formula are written through the
embedding `qr`. -/
def quatToRot (q : Quat) : Matrix (Fin 3) (Fin 3) Q2 :=
  !![qr 1 - qr 2*(q.y*q.y + q.z*q.z), qr 2*(q.x*q.y - q.z*q.w), qr 2*(q.x*q.z + q.y*q.w);
     qr 2*(q.x*q.y + q.z*q.w), qr 1 - qr 2*(q.x*q.x + q.z*q.z), qr 2*(q.y*q.z - q.x*q.w);
     qr 2*(q.x*q.z - q.y*q.w), qr 2*(q.y*q.z + q.x*q.w), qr 1 - qr 2*(q.x*q.x + q.y*q.y)]

/-- Modelled from the spec: `util.tf_from_pos_quat(pos, quat)` (the module
`burg_toolkit/util.py` is not among the provided sources).  Per the spec's
Pose Transform Utility, it builds the 4×4 homogeneous transform whose rotation
block is the quaternion's rotation matrix and whose translation column is
`pos`. -/
def tf_from_pos_quat (p : Fin 3 → Q2) (q : Quat) : Matrix (Fin 4) (Fin 4) Q2 :=
  let R := quatToRot q
  !![R 0 0, R 0 1, R 0 2, p 0;
     R 1 0, R 1 1, R 1 2, p 1;
     R 2 0, R 2 1, R 2 2, p 2;
     0, 0, 0, 1]

/-- The value of pybullet's `getQuaternionFromEuler([π, 0, π/2])` (external
engine call): extrinsic X-Y-Z Euler angles give `q = q_z(π/2) ⊗ q_y(0) ⊗ q_x(π)`,
whose components in `[x, y, z, w]` order are `(√2/2, √2/2, 0, 0)`.  Both gripper
variants use exactly this orientation offset. -/
def ornOffsetQuat : Quat := ⟨sqrt2div2, sqrt2div2, qr 0, qr 0⟩

/-- Grasp-center position offset of `GripperRobotiq2F140`:
`[0, 0, 0.235 * gripper_size]`. -/
def robotiqPosOffset (size : ℚ) : Fin 3 → Q2 := ![qr 0, qr 0, qr (47/200 * size)]

/-- Grasp-center position offset of `GripperWSG32`: `[0, 0, 0.136 * gripper_size]`. -/
def wsgPosOffset (size : ℚ) : Fin 3 → Q2 := ![qr 0, qr 0, qr (17/125 * size)]

/-- `tf2hand` as computed in `_get_pos_orn_from_grasp_pose` for the Robotiq
2F-140 offsets. -/
def robotiqTf2hand (size : ℚ) : Matrix (Fin 4) (Fin 4) Q2 :=
  tf_from_pos_quat (robotiqPosOffset size) ornOffsetQuat

/-- `tf2hand` as computed in `_get_pos_orn_from_grasp_pose` for the WSG 32
offsets. -/
def wsgTf2hand (size : ℚ) : Matrix (Fin 4) (Fin 4) Q2 :=
  tf_from_pos_quat (wsgPosOffset size) ornOffsetQuat

/-- `gripper_pose = grasp_pose @ tf2hand` (base.py line 68), Robotiq offsets.
`util.position_and_quaternion_from_tf` then merely extracts position and
orientation of this transform, so the transform is the computed placement. -/
def robotiqGripperPose (size : ℚ) (graspPose : Matrix (Fin 4) (Fin 4) Q2) :
    Matrix (Fin 4) (Fin 4) Q2 :=
  graspPose * robotiqTf2hand size

/-- `gripper_pose = grasp_pose @ tf2hand` (base.py line 68), WSG 32 offsets. -/
def wsgGripperPose (size : ℚ) (graspPose : Matrix (Fin 4) (Fin 4) Q2) :
    Matrix (Fin 4) (Fin 4) Q2 :=
  graspPose * wsgTf2hand size

theorem robotiqTf2hand_explicit (size : ℚ) :
    robotiqTf2hand size =
      !![qr 0, qr 1, qr 0, qr 0;
         qr 1, qr 0, qr 0, qr 0;
         qr 0, qr 0, qr (-1), qr (47/200 * size);
         qr 0, qr 0, qr 0, qr 1] := by
  ext i j
  fin_cases i <;> fin_cases j <;>
    simp [robotiqTf2hand, tf_from_pos_quat, quatToRot, ornOffsetQuat,
      robotiqPosOffset, Matrix.vecHead, Matrix.vecTail, Function.comp,
      qr, sqrt2div2, mul_def, add_def, neg_def, sub_def, zero_def, one_def,
      ext_iff'] <;> norm_num

theorem wsgTf2hand_explicit (size : ℚ) :
    wsgTf2hand size =
      !![qr 0, qr 1, qr 0, qr 0;
         qr 1, qr 0, qr 0, qr 0;
         qr 0, qr 0, qr (-1), qr (17/125 * size);
         qr 0, qr 0, qr 0, qr 1] := by
  ext i j
  fin_cases i <;> fin_cases j <;>
    simp [wsgTf2hand, tf_from_pos_quat, quatToRot, ornOffsetQuat,
      wsgPosOffset, Matrix.vecHead, Matrix.vecTail, Function.comp,
      qr, sqrt2div2, mul_def, add_def, neg_def, sub_def, zero_def, one_def,
      ext_iff'] <;> norm_num

/-- The grasp-center-offset transform of the Robotiq 2F-140 is involutive. -/
theorem robotiqTf2hand_invol (size : ℚ) :
    robotiqTf2hand size * robotiqTf2hand size = 1 := by
  rw [robotiqTf2hand_explicit]
  ext i j
  fin_cases i <;> fin_cases j <;>
    simp [Matrix.mul_apply, Fin.sum_univ_four, Matrix.one_apply,
      Matrix.vecHead, Matrix.vecTail, Function.comp, qr, mul_def, add_def,
      neg_def, sub_def, zero_def, one_def, ext_iff'] <;> norm_num

/-- The grasp-center-offset transform of the WSG 32 is involutive. -/
theorem wsgTf2hand_invol (size : ℚ) :
    wsgTf2hand size * wsgTf2hand size = 1 := by
  rw [wsgTf2hand_explicit]
  ext i j
  fin_cases i <;> fin_cases j <;>
    simp [Matrix.mul_apply, Fin.sum_univ_four, Matrix.one_apply,
      Matrix.vecHead, Matrix.vecTail, Function.comp, qr, mul_def, add_def,
      neg_def, sub_def, zero_def, one_def, ext_iff'] <;> norm_num

/-- C2: For every grasp pose (rigid transform of the grasp center), the gripper
base placement computed for loading equals the grasp pose composed with the
inverse of the grasp-center-offset transform built from `get_pos_offset()` and
`get_orn_offset()`.  Here `M` (resp. `N`) is any right inverse of the Robotiq
(resp. WSG 32) grasp-center-offset transform; the placement computed by
`_get_pos_orn_from_grasp_pose` equals `grasp_pose * M` (resp. `grasp_pose * N`).
This holds because the offset transform of both gripper variants is involutive,
hence equal to its own inverse. -/
theorem gripper_base_placement_is_grasp_pose_mul_offset_inverse
    (size : ℚ) (M N : Matrix (Fin 4) (Fin 4) Q2)
    (hR : robotiqTf2hand size * M = 1) (hW : wsgTf2hand size * N = 1) :
    (∀ graspPose, robotiqGripperPose size graspPose = graspPose * M) ∧
    (∀ graspPose, wsgGripperPose size graspPose = graspPose * N) := by
  have hM : M = robotiqTf2hand size := by
    calc M = 1 * M := (one_mul M).symm
    _ = (robotiqTf2hand size * robotiqTf2hand size) * M := by
        rw [robotiqTf2hand_invol]
    _ = robotiqTf2hand size * (robotiqTf2hand size * M) := by
        rw [Matrix.mul_assoc]
    _ = robotiqTf2hand size * 1 := by rw [hR]
    _ = robotiqTf2hand size := mul_one _
  have hN : N = wsgTf2hand size := by
    calc N = 1 * N := (one_mul N).symm
    _ = (wsgTf2hand size * wsgTf2hand size) * N := by rw [wsgTf2hand_invol]
    _ = wsgTf2hand size * (wsgTf2hand size * N) := by rw [Matrix.mul_assoc]
    _ = wsgTf2hand size * 1 := by rw [hW]
    _ = wsgTf2hand size := mul_one _
  subst hM hN
  exact ⟨fun g => rfl, fun g => rfl⟩

/-- The inverse of the Robotiq 2F-140 grasp-center-offset transform at
`gripper_size = 1` (it coincides with the transform itself). -/
def robotiqOffsetInv : Matrix (Fin 4) (Fin 4) Q2 :=
  !![qr 0, qr 1, qr 0, qr 0;
     qr 1, qr 0, qr 0, qr 0;
     qr 0, qr 0, qr (-1), qr (47/200);
     qr 0, qr 0, qr 0, qr 1]

/-- The inverse of the WSG 32 grasp-center-offset transform at
`gripper_size = 1`. -/
def wsgOffsetInv : Matrix (Fin 4) (Fin 4) Q2 :=
  !![qr 0, qr 1, qr 0, qr 0;
     qr 1, qr 0, qr 0, qr 0;
     qr 0, qr 0, qr (-1), qr (17/125);
     qr 0, qr 0, qr 0, qr 1]

theorem robotiqOffsetInv_eq : robotiqOffsetInv = robotiqTf2hand 1 := by
  rw [robotiqTf2hand_explicit]
  norm_num [robotiqOffsetInv]

theorem wsgOffsetInv_eq : wsgOffsetInv = wsgTf2hand 1 := by
  rw [wsgTf2hand_explicit]
  norm_num [wsgOffsetInv]

theorem robotiq_inv_hyp : robotiqTf2hand 1 * robotiqOffsetInv = 1 := by
  rw [robotiqOffsetInv_eq]; exact robotiqTf2hand_invol 1

theorem wsg_inv_hyp : wsgTf2hand 1 * wsgOffsetInv = 1 := by
  rw [wsgOffsetInv_eq]; exact wsgTf2hand_invol 1

/-- Witness for C2 at `gripper_size = 1`, the identity grasp pose, and the
concrete inverse offset matrices. -/
theorem gripper_base_placement_is_grasp_pose_mul_offset_inverse_witness :
    (robotiqTf2hand 1 * robotiqOffsetInv = 1) ∧
    (wsgTf2hand 1 * wsgOffsetInv = 1) ∧
    robotiqGripperPose 1 1 = 1 * robotiqOffsetInv ∧
    wsgGripperPose 1 1 = 1 * wsgOffsetInv :=
  ⟨robotiq_inv_hyp, wsg_inv_hyp,
   (gripper_base_placement_is_grasp_pose_mul_offset_inverse 1
      robotiqOffsetInv wsgOffsetInv robotiq_inv_hyp wsg_inv_hyp).1 1,
   (gripper_base_placement_is_grasp_pose_mul_offset_inverse 1
      robotiqOffsetInv wsgOffsetInv robotiq_inv_hyp wsg_inv_hyp).2 1⟩

/-! ## Gripper-variant simulation model (C3, C4, C7, C8)

A minimal state model of a single gripper body inside the bullet client:
measured joint positions, the simulated clock, and a log of the motor
commands the gripper code issues.  `sim.step` advances the simulated clock;
the effects of the engine's own physics integration and of registered
per-step callbacks belong to the external engine and are outside these
claims. -/

inductive CtrlMode where
  | position
  | velocity
deriving DecidableEq

/-- One `setJointMotorControl2` call: joint id, control mode, and the passed
keyword parameters (`none` where the call site does not pass them). -/
structure MotorCmd where
  jointId : ℕ
  mode : CtrlMode
  targetPosition : Option ℚ
  targetVelocity : Option ℚ
  force : ℚ
  positionGain : Option ℚ
deriving DecidableEq

/-- One `setJointMotorControlArray` call. -/
structure MotorArrayCmd where
  jointIds : List ℕ
  mode : CtrlMode
  targetPositions : List ℚ
  forces : List ℚ
  positionGains : List ℚ
deriving DecidableEq

/-- Simulation state visible to one gripper instance. -/
structure GSim where
  bodyId : Option ℕ
  jointPos : ℕ → ℚ
  time : ℚ
  cmds : List MotorCmd
  arrayCmds : List MotorArrayCmd
  stepFuncs : ℕ
  fricConfigured : Bool
  massConfigured : Bool

/-- `bullet_client.resetJointState(body, joint, value)`: directly overwrites a
joint's position. -/
def resetJointState (s : GSim) (j : ℕ) (v : ℚ) : GSim :=
  { s with jointPos := Function.update s.jointPos j v }

/-- `sim.step(seconds)`: advances the simulated clock. -/
def simStep (s : GSim) (seconds : ℚ) : GSim :=
  { s with time := s.time + seconds }

/-! ### GripperRobotiq2F140 (gripper_module/gripper_robotiq_2f_140.py) -/

def robotiqForce : ℚ := 50
def robotiqGraspSpeed : ℚ := 4/5
def robotiqDriverJointId : ℕ := 0
def robotiqFollowerJointIds : List ℕ := [5, 2, 7, 4, 9]
def robotiqFollowerJointSign : List ℚ := [-1, 1, 1, -1, -1]
def robotiqDriverJointLower : ℚ := 0
def robotiqDriverJointUpper : ℚ := 7/10

/-- `GripperRobotiq2F140.step_constraints`: reads the driver joint's measured
position, commands every follower to `pos * sign_i` in one
`setJointMotorControlArray` call (shared force `50` and position gain `1.5`),
and returns the driver position. -/
def robotiqStepConstraints (s : GSim) : GSim × ℚ :=
  let pos := s.jointPos robotiqDriverJointId
  let targets := robotiqFollowerJointSign.map (fun sgn => pos * sgn)
  ({ s with arrayCmds := s.arrayCmds ++
      [⟨robotiqFollowerJointIds, CtrlMode.position, targets,
        List.replicate robotiqFollowerJointIds.length robotiqForce,
        List.replicate robotiqFollowerJointIds.length (3/2)⟩] },
   pos)

/-- The initial joint-state block of `GripperRobotiq2F140.load` (lines 38–43):
`driver_pos = open_scale*lower + (1-open_scale)*upper`, reset the driver, then
reset each follower to `driver_pos * sign_i`. -/
def robotiqInitialJointReset (openScale : ℚ) (s : GSim) : GSim :=
  let driverPos := openScale * robotiqDriverJointLower
    + (1 - openScale) * robotiqDriverJointUpper
  let s1 := resetJointState s robotiqDriverJointId driverPos
  (List.zip robotiqFollowerJointIds
      (robotiqFollowerJointSign.map (fun sgn => driverPos * sgn))).foldl
    (fun st p => resetJointState st p.1 p.2) s1

/-- `GripperRobotiq2F140.load(position, orientation, open_scale)`: the
`assert 0.1 <= open_scale <= 1.0` is the first statement; only then the URDF
is loaded (body id assigned), friction and mass are configured, initial joint
positions are reset and `step_constraints` is registered as a per-step
callback.  A failed assertion is the returned error message, with the state
unchanged. -/
def robotiqLoad (openScale : ℚ) (s : GSim) : GSim × Option String :=
  if 1/10 ≤ openScale ∧ openScale ≤ 1 then
    let s1 := { s with bodyId := some 1 }
    let s2 := { s1 with fricConfigured := true, massConfigured := true }
    let s3 := robotiqInitialJointReset openScale s2
    ({ s3 with stepFuncs := s3.stepFuncs + 1 }, none)
  else
    (s, some "open_scale is out of range")

/-- `GripperRobotiq2F140.close`: one velocity-control command to the driver
joint (target velocity `_grasp_speed = 0.8`, force `_force = 50`), then
`sim.step(seconds=2)`. Returns no success/failure value (the Python method
returns `None`), so the model's result is just the state. -/
def robotiqClose (s : GSim) : GSim :=
  simStep
    { s with cmds := s.cmds ++
        [⟨robotiqDriverJointId, CtrlMode.velocity, none,
          some robotiqGraspSpeed, robotiqForce, none⟩] }
    2

/-- Modelled from the spec: `GripperRobotiq2F140` inherits `set_open_scale`
from `gripper_module/gripper_base.py`, which is not among the provided
sources.  Per the spec, `set_open_scale(scale)` validates `scale ∈ [0.1, 1.0]`
and resets joint positions to reflect the requested open amount without
stepping the simulation; the reset block is the one `load` uses
(`robotiqInitialJointReset`, which is in the provided sources). -/
def robotiqSetOpenScale (openScale : ℚ) (s : GSim) : GSim × Option String :=
  if 1/10 ≤ openScale ∧ openScale ≤ 1 then
    match s.bodyId with
    | some _ => (robotiqInitialJointReset openScale s, none)
    | none => (s, some "gripper is not loaded")
  else
    (s, some "open_scale is out of range")

/-! ### GripperWSG32 (gripper_module/wsg_32.py) -/

def wsgForce : ℚ := 100
def wsgGraspSpeed : ℚ := 1/10
def wsgDriverJointId : ℕ := 0
def wsgFollowerJointId : ℕ := 2
def wsgMovingJointIds : List ℕ := [0, 2]

/-- `_finger_open_distance = 0.028 * gripper_size`. -/
def wsgFingerOpenDistance (size : ℚ) : ℚ := 7/250 * size

/-- `GripperWSG32.set_open_scale`: asserts `0.1 <= open_scale <= 1.0` first,
then resets moving joints `[0, 2]` to
`[-d*open_scale, d*open_scale]` with `d = _finger_open_distance`.
`resetJointState` is called with `self.body_id`, so a body must be loaded for
the engine call to be meaningful. -/
def wsgSetOpenScale (size openScale : ℚ) (s : GSim) : GSim × Option String :=
  if 1/10 ≤ openScale ∧ openScale ≤ 1 then
    match s.bodyId with
    | some _ =>
        let d := wsgFingerOpenDistance size
        let s1 := resetJointState s 0 (-(d * openScale))
        (resetJointState s1 2 (d * openScale), none)
    | none => (s, some "gripper is not loaded")
  else
    (s, some "open_scale is out of range")

/-- `GripperWSG32.step_constraints`: reads the driver position, issues one
position-control command to the follower joint with target `-pos`, force
`100`, assistive target velocity `2 * _grasp_speed` and position gain `1.8`,
and returns the driver position. -/
def wsgStepConstraints (s : GSim) : GSim × ℚ :=
  let pos := s.jointPos wsgDriverJointId
  ({ s with cmds := s.cmds ++
      [⟨wsgFollowerJointId, CtrlMode.position, some (-pos),
        some (2 * wsgGraspSpeed), wsgForce, some (9/5)⟩] },
   pos)

/-- `GripperWSG32.close`: one velocity-control command to the driver joint
(target velocity `_grasp_speed = 0.1`, force `_force = 100`), then
`sim.step(seconds=2)`; returns `None`. -/
def wsgClose (s : GSim) : GSim :=
  simStep
    { s with cmds := s.cmds ++
        [⟨wsgDriverJointId, CtrlMode.velocity, none,
          some wsgGraspSpeed, wsgForce, none⟩] }
    2

/-! ### Concrete states used by witnesses -/

/-- A freshly constructed, unloaded simulation state. -/
def gsim0 : GSim := ⟨none, fun _ => 0, 0, [], [], 0, false, false⟩

/-- A loaded simulation state whose driver joint is at position `1/2`. -/
def gsimL : GSim := ⟨some 1, fun _ => 1/2, 0, [], [], 1, true, true⟩

/-- C3: For the mirrored multi-follower coupling controller of the Robotiq
2F-140 (five followers with signs `[-1, 1, 1, -1, -1]`), on every simulation
step `step_constraints` reads the driver joint's measured position `p` and
issues one simultaneous position-control command to the registered followers
`[5, 2, 7, 4, 9]` with target positions `p * sign_i`, a shared force limit
`50` and a shared position gain `1.5`, and returns `p` — for every `p` in the
driver's valid range `[0, 0.7]`. -/
theorem robotiq_step_constraints_mirrors_driver (s : GSim)
    (h : robotiqDriverJointLower ≤ s.jointPos robotiqDriverJointId ∧
      s.jointPos robotiqDriverJointId ≤ robotiqDriverJointUpper) :
    (robotiqStepConstraints s).1.arrayCmds = s.arrayCmds ++
      [⟨robotiqFollowerJointIds, CtrlMode.position,
        [-(s.jointPos robotiqDriverJointId), s.jointPos robotiqDriverJointId,
         s.jointPos robotiqDriverJointId, -(s.jointPos robotiqDriverJointId),
         -(s.jointPos robotiqDriverJointId)],
        List.replicate 5 robotiqForce, List.replicate 5 (3/2)⟩] ∧
    (robotiqStepConstraints s).2 = s.jointPos robotiqDriverJointId := by
  refine ⟨?_, rfl⟩
  simp [robotiqStepConstraints, robotiqFollowerJointSign, robotiqFollowerJointIds]

/-- Witness for C3 at a loaded state with driver position `1/2 ∈ [0, 0.7]`. -/
theorem robotiq_step_constraints_mirrors_driver_witness :
    (robotiqDriverJointLower ≤ gsimL.jointPos robotiqDriverJointId ∧
      gsimL.jointPos robotiqDriverJointId ≤ robotiqDriverJointUpper) ∧
    ((robotiqStepConstraints gsimL).1.arrayCmds = gsimL.arrayCmds ++
      [⟨robotiqFollowerJointIds, CtrlMode.position,
        [-(gsimL.jointPos robotiqDriverJointId), gsimL.jointPos robotiqDriverJointId,
         gsimL.jointPos robotiqDriverJointId, -(gsimL.jointPos robotiqDriverJointId),
         -(gsimL.jointPos robotiqDriverJointId)],
        List.replicate 5 robotiqForce, List.replicate 5 (3/2)⟩] ∧
    (robotiqStepConstraints gsimL).2 = gsimL.jointPos robotiqDriverJointId) :=
  ⟨by norm_num [gsimL, robotiqDriverJointLower, robotiqDriverJointUpper],
   robotiq_step_constraints_mirrors_driver gsimL
     (by norm_num [gsimL, robotiqDriverJointLower, robotiqDriverJointUpper])⟩

/-- C4: For every open-scale argument outside `[0.1, 1.0]`, both
`GripperRobotiq2F140.load` and `GripperWSG32.set_open_scale` fail with the
invalid-argument condition (`assert`, message `open_scale is out of range`)
before attempting the operation — the returned state is exactly the input
state, so no partial state change occurs.  For every open scale in
`[0.1, 1.0]` no such failure occurs (`load` succeeds on any state, and
`set_open_scale` succeeds on any loaded state). -/
theorem open_scale_validation (scale size : ℚ) (s : GSim) :
    ((scale < 1/10 ∨ 1 < scale) →
      robotiqLoad scale s = (s, some "open_scale is out of range") ∧
      wsgSetOpenScale size scale s = (s, some "open_scale is out of range")) ∧
    (1/10 ≤ scale ∧ scale ≤ 1 →
      (robotiqLoad scale s).2 = none ∧
      (s.bodyId.isSome → (wsgSetOpenScale size scale s).2 = none)) := by
  constructor
  · intro h
    have hrange : ¬ (1/10 ≤ scale ∧ scale ≤ 1) := by
      rcases h with h | h
      · exact fun hc => absurd hc.1 (not_le.mpr h)
      · exact fun hc => absurd hc.2 (not_le.mpr h)
    constructor
    · unfold robotiqLoad
      rw [if_neg hrange]
    · unfold wsgSetOpenScale
      rw [if_neg hrange]
  · intro h
    constructor
    · show (robotiqLoad scale s).2 = none
      unfold robotiqLoad
      rw [if_pos h]
    · intro hloaded
      rcases hb : s.bodyId with _ | b
      · rw [hb] at hloaded; simp at hloaded
      · show (wsgSetOpenScale size scale s).2 = none
        unfold wsgSetOpenScale
        rw [if_pos h, hb]

/-- Witness for C4: `scale = 0.0` and `scale = 1.5` are rejected with the
state unchanged, `scale = 0.5` is accepted. -/
theorem open_scale_validation_witness :
    ((0 : ℚ) < 1/10 ∨ (1 : ℚ) < 0) ∧
    (robotiqLoad 0 gsim0 = (gsim0, some "open_scale is out of range") ∧
      wsgSetOpenScale 1 0 gsim0 = (gsim0, some "open_scale is out of range")) ∧
    ((1 : ℚ) < 3/2) ∧
    (robotiqLoad (3/2) gsim0 = (gsim0, some "open_scale is out of range") ∧
      wsgSetOpenScale 1 (3/2) gsim0 = (gsim0, some "open_scale is out of range")) ∧
    ((robotiqLoad (1/2) gsimL).2 = none ∧
      (gsimL.bodyId.isSome → (wsgSetOpenScale 1 (1/2) gsimL).2 = none)) :=
  ⟨Or.inl (by norm_num),
   (open_scale_validation 0 1 gsim0).1 (Or.inl (by norm_num)),
   by norm_num,
   (open_scale_validation (3/2) 1 gsim0).1 (Or.inr (by norm_num)),
   (open_scale_validation (1/2) 1 gsimL).2 (by norm_num)⟩

theorem update02_idem (f : ℕ → ℚ) (v0 v2 : ℚ) :
    Function.update (Function.update
        (Function.update (Function.update f 0 v0) 2 v2) 0 v0) 2 v2
      = Function.update (Function.update f 0 v0) 2 v2 := by
  funext j
  simp only [Function.update_apply]
  split_ifs <;> rfl

/-- C8: For every gripper variant and every valid open-scale value
`s ∈ [0.1, 1.0]`, calling `set_open_scale(s)` twice on a loaded gripper
yields a state identical to calling it once (idempotence).  The WSG 32
implements `set_open_scale` in the provided sources; the Robotiq 2F-140
inherits it from the absent `gripper_module/gripper_base.py` and is covered
through the spec-modelled `robotiqSetOpenScale`. -/
theorem set_open_scale_idempotent (size scale : ℚ) (s : GSim) (b : ℕ)
    (hb : s.bodyId = some b) (hs : 1/10 ≤ scale ∧ scale ≤ 1) :
    (wsgSetOpenScale size scale (wsgSetOpenScale size scale s).1).1 =
      (wsgSetOpenScale size scale s).1 ∧
    (robotiqSetOpenScale scale (robotiqSetOpenScale scale s).1).1 =
      (robotiqSetOpenScale scale s).1 := by
  obtain ⟨bid, jp, tm, cs, acs, sf, fc, mc⟩ := s
  simp only [GSim.mk.injEq] at hb ⊢
  subst hb
  constructor
  · unfold wsgSetOpenScale
    rw [if_pos hs]
    simp only [resetJointState, if_pos hs, GSim.mk.injEq, and_true, true_and]
    exact update02_idem _ _ _
  · unfold robotiqSetOpenScale
    rw [if_pos hs]
    simp only [robotiqInitialJointReset, robotiqFollowerJointIds,
      robotiqFollowerJointSign, robotiqDriverJointId, List.map, List.zip,
      List.zipWith, List.foldl, resetJointState, if_pos hs, GSim.mk.injEq,
      and_true, true_and]
    funext j
    simp only [Function.update_apply]
    split_ifs <;> rfl

/-- Witness for C8 at `gripper_size = 1`, `open_scale = 1/2`, on the loaded
state `gsimL`. -/
theorem set_open_scale_idempotent_witness :
    gsimL.bodyId = some 1 ∧ ((1:ℚ)/10 ≤ 1/2 ∧ (1:ℚ)/2 ≤ 1) ∧
    ((wsgSetOpenScale 1 (1/2) (wsgSetOpenScale 1 (1/2) gsimL).1).1 =
        (wsgSetOpenScale 1 (1/2) gsimL).1 ∧
      (robotiqSetOpenScale (1/2) (robotiqSetOpenScale (1/2) gsimL).1).1 =
        (robotiqSetOpenScale (1/2) gsimL).1) :=
  ⟨rfl, ⟨by norm_num, by norm_num⟩,
   set_open_scale_idempotent 1 (1/2) gsimL 1 rfl ⟨by norm_num, by norm_num⟩⟩

/-- C7: For every state, `close()` of each loaded gripper variant issues a
single velocity-control command to the driver joint with the variant's grasp
speed and force limit (`0.8`/`50` for the Robotiq 2F-140, `0.1`/`100` for the
WSG 32), then blocks by advancing the simulated clock by the fixed settling
duration of 2 simulated seconds, and returns no success/failure indication
(the model's result type is just the state, as the Python method returns
`None`). -/
theorem close_commands_driver_then_settles (s t : GSim) :
    ((robotiqClose s).cmds = s.cmds ++
        [⟨robotiqDriverJointId, CtrlMode.velocity, none,
          some robotiqGraspSpeed, robotiqForce, none⟩] ∧
      (robotiqClose s).time = s.time + 2 ∧
      (robotiqClose s).jointPos = s.jointPos ∧
      (robotiqClose s).arrayCmds = s.arrayCmds) ∧
    ((wsgClose t).cmds = t.cmds ++
        [⟨wsgDriverJointId, CtrlMode.velocity, none,
          some wsgGraspSpeed, wsgForce, none⟩] ∧
      (wsgClose t).time = t.time + 2 ∧
      (wsgClose t).jointPos = t.jointPos ∧
      (wsgClose t).arrayCmds = t.arrayCmds) :=
  ⟨⟨rfl, rfl, rfl, rfl⟩, ⟨rfl, rfl, rfl, rfl⟩⟩

/-! ## Shared GripperBase operations over the engine (C5, C6, C10)

Model of the non-overridable operations of `gripper/base.py`
(`mass`, `num_joints`, `joint_positions`, `configure_friction`,
`configure_mass`, `set_color`).  The bullet client's body/joint tables are an
explicit `Engine` record; link index `-1` is the base link.  Python `assert`
failures are modelled as `Except.error` carrying the assertion message (empty
for the message-less `assert` of `configure_mass`). -/

/-- The engine's per-body state consumed by the shared operations. -/
structure Engine where
  numJoints : ℕ → ℕ
  linkMass : ℕ → ℤ → ℚ
  enginePos : ℕ → ℕ → ℚ
  linkColor : ℕ → ℤ → List ℚ
  lateralFriction : ℕ → ℕ → ℚ
  spinningFriction : ℕ → ℕ → ℚ
  rollingFriction : ℕ → ℕ → ℚ
  frictionAnchor : ℕ → ℕ → Bool

/-- The `GripperBase` fields the shared operations read: `_body_id` (None
until loaded) and the lazily cached `__mass`.  `__init__` sets both to
`None`, and `__mass` is only ever written after the loaded-assertion of the
`mass` property has passed, so an instance that was never loaded always has
an empty cache. -/
structure Gripper where
  bodyId : Option ℕ
  massCache : Option ℚ

/-- `GripperBase.num_joints` (property): asserts the gripper is loaded, then
reads `getNumJoints`. -/
def num_joints (g : Gripper) (e : Engine) : Except String ℕ :=
  match g.bodyId with
  | some b => .ok (e.numJoints b)
  | none =>
      .error "can only determine number of joints after gripper is loaded in simulation"

/-- `GripperBase.mass` (property): returns the cache when present; otherwise
asserts the gripper is loaded, sums the base-link mass and every joint
link's mass, and caches the result. -/
def mass (g : Gripper) (e : Engine) : Except String (ℚ × Gripper) :=
  match g.massCache with
  | some m => .ok (m, g)
  | none =>
      match g.bodyId with
      | some b =>
          let total := e.linkMass b (-1)
            + ∑ i ∈ Finset.range (e.numJoints b), e.linkMass b i
          .ok (total, { g with massCache := some total })
      | none => .error "can only get mass after gripper is loaded in simulation"

/-- `GripperBase.joint_positions` (property): evaluates
`getJointStates(self.body_id, range(self.num_joints))`; the `num_joints`
access asserts the gripper is loaded before the engine is touched, so on an
unloaded instance the error is the `num_joints` assertion message. -/
def joint_positions (g : Gripper) (e : Engine) : Except String (List ℚ) :=
  match g.bodyId with
  | some b => .ok ((List.range (e.numJoints b)).map (e.enginePos b))
  | none =>
      .error "can only determine number of joints after gripper is loaded in simulation"

/-- `GripperBase.configure_friction`: asserts the gripper is loaded, then
sets the friction parameters on every joint link `0 ≤ i < num_joints`. -/
def configure_friction (g : Gripper) (e : Engine)
    (lateral spinning rolling : ℚ) (anchor : Bool) : Except String Engine :=
  match g.bodyId with
  | some b =>
      .ok { e with
        lateralFriction := fun b' j =>
          if b' = b ∧ j < e.numJoints b then lateral else e.lateralFriction b' j
        spinningFriction := fun b' j =>
          if b' = b ∧ j < e.numJoints b then spinning else e.spinningFriction b' j
        rollingFriction := fun b' j =>
          if b' = b ∧ j < e.numJoints b then rolling else e.rollingFriction b' j
        frictionAnchor := fun b' j =>
          if b' = b ∧ j < e.numJoints b then anchor else e.frictionAnchor b' j }
  | none =>
      .error "can only configure friction after gripper is loaded in simulation"

/-- `GripperBase.configure_mass(base_mass=0.4, combined_finger_mass=0.1)`:
asserts the gripper is loaded (message-less `assert`), sets the base link's
mass to `base_mass` and every joint link's mass to
`combined_finger_mass / num_joints`. -/
def configure_mass (g : Gripper) (e : Engine)
    (baseMass combinedFingerMass : ℚ) : Except String Engine :=
  match g.bodyId with
  | some b =>
      let n := e.numJoints b
      .ok { e with
        linkMass := fun b' l =>
          if b' = b then
            if l = -1 then baseMass
            else if 0 ≤ l ∧ l < (n : ℤ) then combinedFingerMass / (n : ℚ)
            else e.linkMass b' l
          else e.linkMass b' l }
  | none => .error ""

/-- `GripperBase.set_color(color)`: asserts the gripper is loaded; if the
argument has length 3 it appends `1` to that very list (`color.append(1)`,
an in-place mutation of the caller's argument, modelled by returning the
final value of the caller's list), then applies the resulting color to the
base link `-1` and every joint link. -/
def set_color (g : Gripper) (e : Engine) (color : List ℚ) :
    Except String (List ℚ × Engine) :=
  match g.bodyId with
  | some b =>
      let c := if color.length = 3 then color ++ [1] else color
      .ok (c, { e with
        linkColor := fun b' l =>
          if b' = b ∧ -1 ≤ l ∧ l < (e.numJoints b : ℤ) then c
          else e.linkColor b' l })
  | none => .error "can only set color after gripper is loaded in simulation"

/-- An unloaded, never-loaded gripper instance. -/
def gripper0 : Gripper := ⟨none, none⟩

/-- A trivial engine with two joints on body `1`. -/
def engine0 : Engine :=
  ⟨fun _ => 2, fun _ _ => 1, fun _ _ => 0, fun _ _ => [],
   fun _ _ => 1, fun _ _ => 1, fun _ _ => 1/10000, fun _ _ => true⟩

/-- A loaded gripper instance on body `1`, with an empty mass cache. -/
def gripper1 : Gripper := ⟨some 1, none⟩

/-- C5: For every gripper instance that is not loaded (body handle `None`,
and the mass cache still empty as every never-loaded instance has it), each
state query or engine-touching shared operation — `mass`, `num_joints`,
`joint_positions`, `configure_friction`, `configure_mass`, `set_color` —
fails immediately with the corresponding assertion (precondition-violation)
and never silently returns a default value. -/
theorem unloaded_accessors_fail (g : Gripper) (e : Engine) (color : List ℚ)
    (lateral spinning rolling : ℚ) (anchor : Bool)
    (baseMass combinedFingerMass : ℚ)
    (hb : g.bodyId = none) (hm : g.massCache = none) :
    mass g e = .error "can only get mass after gripper is loaded in simulation" ∧
    num_joints g e =
      .error "can only determine number of joints after gripper is loaded in simulation" ∧
    joint_positions g e =
      .error "can only determine number of joints after gripper is loaded in simulation" ∧
    configure_friction g e lateral spinning rolling anchor =
      .error "can only configure friction after gripper is loaded in simulation" ∧
    configure_mass g e baseMass combinedFingerMass = .error "" ∧
    set_color g e color =
      .error "can only set color after gripper is loaded in simulation" := by
  refine ⟨?_, ?_, ?_, ?_, ?_, ?_⟩ <;>
    simp [mass, num_joints, joint_positions, configure_friction,
      configure_mass, set_color, hb, hm]

/-- Witness for C5 on a freshly constructed (never loaded) instance. -/
theorem unloaded_accessors_fail_witness :
    gripper0.bodyId = none ∧ gripper0.massCache = none ∧
    (mass gripper0 engine0 =
        .error "can only get mass after gripper is loaded in simulation" ∧
      num_joints gripper0 engine0 =
        .error "can only determine number of joints after gripper is loaded in simulation" ∧
      joint_positions gripper0 engine0 =
        .error "can only determine number of joints after gripper is loaded in simulation" ∧
      configure_friction gripper0 engine0 1 1 (1/10000) true =
        .error "can only configure friction after gripper is loaded in simulation" ∧
      configure_mass gripper0 engine0 (2/5) (1/10) = .error "" ∧
      set_color gripper0 engine0 [1/2, 1/2, 1/2] =
        .error "can only set color after gripper is loaded in simulation") :=
  ⟨rfl, rfl,
   unloaded_accessors_fail gripper0 engine0 [1/2, 1/2, 1/2] 1 1 (1/10000)
     true (2/5) (1/10) rfl rfl⟩

/-- C6: For every loaded gripper variant with `k` non-base joints
(`k ∈ {1, 2, 5}`), after `configure_mass(base_mass=0.4,
combined_finger_mass=0.1)` the base link's configured mass is `0.4` and each
non-base joint link's configured mass is `0.1 / k` (exact over `ℚ`), i.e.
`combined_finger_mass` is distributed evenly across all non-base joints. -/
theorem configure_mass_distributes_evenly (g : Gripper) (e : Engine)
    (b k : ℕ) (hb : g.bodyId = some b) (hk : e.numJoints b = k)
    (hkval : k = 1 ∨ k = 2 ∨ k = 5) :
    ∃ e', configure_mass g e (2/5) (1/10) = .ok e' ∧
      e'.linkMass b (-1) = 2/5 ∧
      ∀ i : ℕ, i < k → e'.linkMass b (i : ℤ) = (1/10) / (k : ℚ) := by
  obtain ⟨gb, gm⟩ := g
  simp only [Gripper.bodyId] at hb
  subst hb
  refine ⟨_, rfl, ?_, ?_⟩
  · simp [configure_mass]
  · intro i hi
    have h1 : ((i : ℤ)) ≠ -1 := by omega
    have h2 : (i : ℤ) < ((e.numJoints b : ℕ) : ℤ) := by exact_mod_cast hk ▸ hi
    simp [configure_mass, h1, h2, hk, Int.natCast_nonneg]
    exact fun hcon => absurd hi (Nat.not_lt.mpr hcon)

/-- Witness for C6 with `k = 2` joints on body `1`. -/
theorem configure_mass_distributes_evenly_witness :
    gripper1.bodyId = some 1 ∧ engine0.numJoints 1 = 2 ∧
    ((2 : ℕ) = 1 ∨ (2 : ℕ) = 2 ∨ (2 : ℕ) = 5) ∧
    (∃ e', configure_mass gripper1 engine0 (2/5) (1/10) = .ok e' ∧
      e'.linkMass 1 (-1) = 2/5 ∧
      ∀ i : ℕ, i < 2 → e'.linkMass 1 (i : ℤ) = (1/10) / (2 : ℚ)) :=
  ⟨rfl, rfl, Or.inr (Or.inl rfl),
   configure_mass_distributes_evenly gripper1 engine0 1 2 rfl rfl
     (Or.inr (Or.inl rfl))⟩

/-- C10: When `set_color` is called on a loaded gripper with a color of
length 3, the value `1` is appended to that very list (in-place mutation of
the caller's argument, modelled as the returned final value of the list)
before the color is applied to the base link `-1` and every joint link; a
length-4 argument is left unchanged and applied as-is. -/
theorem set_color_appends_alpha (g : Gripper) (e : Engine) (b : ℕ)
    (color : List ℚ) (hb : g.bodyId = some b) :
    (color.length = 3 →
      ∃ e', set_color g e color = .ok (color ++ [1], e') ∧
        ∀ l : ℤ, -1 ≤ l → l < (e.numJoints b : ℤ) →
          e'.linkColor b l = color ++ [1]) ∧
    (color.length = 4 →
      ∃ e', set_color g e color = .ok (color, e') ∧
        ∀ l : ℤ, -1 ≤ l → l < (e.numJoints b : ℤ) →
          e'.linkColor b l = color) := by
  obtain ⟨gb, gm⟩ := g
  simp only [Gripper.bodyId] at hb
  subst hb
  constructor
  · intro h3
    refine ⟨{ e with
        linkColor := fun b' l =>
          if b' = b ∧ -1 ≤ l ∧ l < (e.numJoints b : ℤ) then color ++ [1]
          else e.linkColor b' l }, ?_, ?_⟩
    · unfold set_color
      simp [h3]
    · intro l hl hlt
      simp [hl, hlt]
  · intro h4
    have hne : color.length ≠ 3 := by omega
    refine ⟨{ e with
        linkColor := fun b' l =>
          if b' = b ∧ -1 ≤ l ∧ l < (e.numJoints b : ℤ) then color
          else e.linkColor b' l }, ?_, ?_⟩
    · unfold set_color
      simp [hne]
    · intro l hl hlt
      simp [hl, hlt]

/-- Witness for C10 with an RGB and an RGBA color on the loaded instance. -/
theorem set_color_appends_alpha_witness :
    gripper1.bodyId = some 1 ∧
    ([ (1:ℚ)/2, 1/2, 1/2 ].length = 3 →
      ∃ e', set_color gripper1 engine0 [1/2, 1/2, 1/2] =
          .ok ([1/2, 1/2, 1/2] ++ [1], e') ∧
        ∀ l : ℤ, -1 ≤ l → l < (engine0.numJoints 1 : ℤ) →
          e'.linkColor 1 l = [1/2, 1/2, 1/2] ++ [1]) ∧
    ([ (1:ℚ), 0, 0, 1 ].length = 4 →
      ∃ e', set_color gripper1 engine0 [1, 0, 0, 1] = .ok ([1, 0, 0, 1], e') ∧
        ∀ l : ℤ, -1 ≤ l → l < (engine0.numJoints 1 : ℤ) →
          e'.linkColor 1 l = [1, 0, 0, 1]) :=
  ⟨rfl,
   (set_color_appends_alpha gripper1 engine0 1 [1/2, 1/2, 1/2] rfl).1,
   (set_color_appends_alpha gripper1 engine0 1 [1, 0, 0, 1] rfl).2⟩

/-! ## MountedGripper.go_to_cartesian_pos (C1, C9)

The mount's closed positioning loop, `gripper/base.py` lines 240–286.  The
physics (how the end-effector actually moves once the position commands are
issued) and the per-step increment of the simulated clock are the external
engine's; the call observes them as a trace: the cartesian end-effector
position after `n` steps and the clock `t0 + n·dt`. -/

structure Vec3 where
  x : ℚ
  y : ℚ
  z : ℚ
deriving DecidableEq

/-- Squared Euclidean distance.  The code compares
`np.linalg.norm(point - pos) < tolerance`; over `ℚ` we compare the squared
norm against the squared tolerance, which is equivalent for the positive
tolerances the call is used with. -/
def dist2 (p q : Vec3) : ℚ :=
  (p.x - q.x)^2 + (p.y - q.y)^2 + (p.z - q.z)^2

/-- One call's view of the engine: simulated seconds at call time (`t0`), the
fixed seconds each `simulator.step()` advances (`dt`), and the measured
end-effector cartesian position after `n` steps. -/
structure MountTrace where
  t0 : ℚ
  dt : ℚ
  eePos : ℕ → Vec3

/-- `simulated_seconds` after `n` steps. -/
def timeAt (tr : MountTrace) (n : ℕ) : ℚ := tr.t0 + n * tr.dt

/-- `point_reached(target_pos)` evaluated after `n` steps. -/
def reachedAt (tr : MountTrace) (target : Vec3) (tol : ℚ) (n : ℕ) : Bool :=
  decide (dist2 target (tr.eePos n) < tol^2)

/-- The while-loop: starting at step index `n`, step until the stop condition
holds.  The fuel argument bounds the recursion; `go_to_cartesian_pos` picks
it large enough to cover the whole time budget. -/
def goToLoop (stop : ℕ → Bool) : ℕ → ℕ → ℕ
  | 0, n => n
  | fuel+1, n => if stop n then n else goToLoop stop fuel (n+1)

/-- Negation of the while-condition
`not point_reached(target_pos) and simulated_seconds < end_time`. -/
def goToStop (tr : MountTrace) (target : Vec3) (tol timeout : ℚ) (n : ℕ) :
    Bool :=
  reachedAt tr target tol n || !(decide (timeAt tr n < tr.t0 + timeout))

/-- Outcome of one `go_to_cartesian_pos` call: the returned boolean, the
number of `simulator.step()` calls performed, and the number of
`calculateInverseKinematics` calls made. -/
structure GoToResult where
  success : Bool
  stepsTaken : ℕ
  ikSolves : ℕ
deriving DecidableEq

/-- `MountedGripper.go_to_cartesian_pos(target_pos, timeout, tolerance)`:
computes `end_time = simulated_seconds + timeout`, solves inverse kinematics
exactly once, issues one position-control command per mount joint, then runs
`while not point_reached(target_pos) and simulated_seconds < end_time:
step()`, and finally returns `point_reached(target_pos)`; the timeout path
logs a warning with the residual distance and returns `False` without
raising.  The fuel `⌈timeout/dt⌉ + 1` strictly exceeds the number of
iterations the time budget allows whenever `dt > 0`, so the bounded loop
coincides with the unbounded while-loop. -/
def go_to_cartesian_pos (tr : MountTrace) (target : Vec3)
    (timeout tol : ℚ) : GoToResult :=
  let fuel := (Int.toNat ⌈timeout / tr.dt⌉) + 1
  let n := goToLoop (goToStop tr target tol timeout) fuel 0
  { success := reachedAt tr target tol n, stepsTaken := n, ikSolves := 1 }

theorem goToLoop_ge (stop : ℕ → Bool) :
    ∀ fuel k, k ≤ goToLoop stop fuel k := by
  intro fuel
  induction fuel with
  | zero => intro k; exact le_refl _
  | succ f ih =>
      intro k
      simp only [goToLoop]
      split
      · exact le_refl k
      · calc k ≤ k + 1 := Nat.le_succ k
        _ ≤ goToLoop stop f (k + 1) := ih (k + 1)

theorem goToLoop_no_early_stop (stop : ℕ → Bool) :
    ∀ fuel k i, k ≤ i → i < goToLoop stop fuel k → stop i = false := by
  intro fuel
  induction fuel with
  | zero => intro k i hk hi; simp [goToLoop] at hi; omega
  | succ f ih =>
      intro k i hk hi
      simp only [goToLoop] at hi
      cases hsk : stop k with
      | true => rw [hsk] at hi; simp at hi; omega
      | false =>
          rw [hsk] at hi; simp at hi
          rcases Nat.eq_or_lt_of_le hk with rfl | hlt
          · exact hsk
          · exact ih (k + 1) i hlt hi

theorem goToLoop_stops (stop : ℕ → Bool) :
    ∀ fuel k, (∃ j, j ≤ fuel ∧ stop (k + j) = true) →
      stop (goToLoop stop fuel k) = true := by
  intro fuel
  induction fuel with
  | zero =>
      intro k ⟨j, hj, hs⟩
      have : j = 0 := Nat.le_zero.mp hj
      subst this
      simpa [goToLoop] using hs
  | succ f ih =>
      intro k ⟨j, hj, hs⟩
      simp only [goToLoop]
      cases hsk : stop k with
      | true => simpa using hsk
      | false =>
          simp only [Bool.false_eq_true, if_false]
          rcases j with _ | j'
          · rw [Nat.add_zero] at hs; rw [hs] at hsk; exact absurd hsk (by simp)
          · exact ih (k + 1) ⟨j', by omega,
              by rw [show k + 1 + j' = k + (j' + 1) by omega]; exact hs⟩

/-- With `dt > 0`, the stop condition holds at step `⌈timeout/dt⌉⁺`
(the clock has then used up the whole budget). -/
theorem goToStop_at_budget (tr : MountTrace) (target : Vec3)
    (tol timeout : ℚ) (hdt : 0 < tr.dt) :
    goToStop tr target tol timeout (Int.toNat ⌈timeout / tr.dt⌉) = true := by
  set j : ℕ := Int.toNat ⌈timeout / tr.dt⌉ with hj
  have hjq : timeout / tr.dt ≤ (j : ℚ) := by
    rcases le_or_lt (timeout / tr.dt) 0 with hq | hq
    · exact hq.trans (Nat.cast_nonneg j)
    · have h1 : (0 : ℤ) ≤ ⌈timeout / tr.dt⌉ := by positivity
      have h2 : ((j : ℤ) : ℚ) = ((⌈timeout / tr.dt⌉ : ℤ) : ℚ) := by
        rw [hj, Int.toNat_of_nonneg h1]
      calc timeout / tr.dt ≤ ((⌈timeout / tr.dt⌉ : ℤ) : ℚ) := Int.le_ceil _
      _ = (j : ℚ) := by push_cast at h2 ⊢; linarith [h2]
  have htime : tr.t0 + timeout ≤ timeAt tr j := by
    have : timeout ≤ (j : ℚ) * tr.dt := by
      calc timeout = (timeout / tr.dt) * tr.dt := by
            field_simp
      _ ≤ (j : ℚ) * tr.dt := by
            exact mul_le_mul_of_nonneg_right hjq (le_of_lt hdt)
    unfold timeAt; linarith
  have hdec : decide (timeAt tr j < tr.t0 + timeout) = false := by
    simp only [decide_eq_false_iff_not, not_lt]
    exact htime
  unfold goToStop
  rw [hdec]
  simp

/-- General characterization of the loop's return value (helper for C1 and
its counterexample): with `dt > 0` the call returns `True` exactly when the
end-effector is within tolerance at the first check at which either the
tolerance is met or the time budget is used up — i.e. exactly when there is a
step index `n` within tolerance such that every earlier check was both out of
tolerance and within the time budget. -/
theorem goTo_success_iff (tr : MountTrace) (target : Vec3)
    (timeout tol : ℚ) (hdt : 0 < tr.dt) :
    (go_to_cartesian_pos tr target timeout tol).success = true ↔
      ∃ n, reachedAt tr target tol n = true ∧
        ∀ m, m < n → reachedAt tr target tol m = false ∧
          timeAt tr m < tr.t0 + timeout := by
  set stop := goToStop tr target tol timeout with hstopdef
  set fuel := (Int.toNat ⌈timeout / tr.dt⌉) + 1 with hfuel
  set m := goToLoop stop fuel 0 with hm
  have hcore_stop : stop m = true := by
    apply goToLoop_stops
    exact ⟨Int.toNat ⌈timeout / tr.dt⌉, by omega,
      by simpa using goToStop_at_budget tr target tol timeout hdt⟩
  have hcore_no : ∀ i, i < m → stop i = false := fun i hi =>
    goToLoop_no_early_stop stop fuel 0 i (Nat.zero_le i) hi
  have hsuccess : (go_to_cartesian_pos tr target timeout tol).success
      = reachedAt tr target tol m := rfl
  rw [hsuccess]
  constructor
  · intro hs
    refine ⟨m, hs, fun i hi => ?_⟩
    have h := hcore_no i hi
    rw [hstopdef] at h
    unfold goToStop at h
    rcases Bool.or_eq_false_iff.mp h with ⟨h1, h2⟩
    refine ⟨h1, ?_⟩
    have h2' : decide (timeAt tr i < tr.t0 + timeout) = true := by
      simpa using h2
    exact of_decide_eq_true h2'
  · rintro ⟨n, hn, hprev⟩
    have hstopn : stop n = true := by
      rw [hstopdef]; unfold goToStop; rw [hn]; simp
    have hprevstop : ∀ i, i < n → stop i = false := by
      intro i hi
      obtain ⟨h1, h2⟩ := hprev i hi
      rw [hstopdef]; unfold goToStop
      rw [h1, decide_eq_true h2]
      simp
    have hmn : m = n := by
      rcases Nat.lt_trichotomy m n with h | h | h
      · rw [hprevstop m h] at hcore_stop; exact absurd hcore_stop (by simp)
      · exact h
      · rw [hcore_no n h] at hstopn; exact absurd hstopn (by simp)
    rw [hmn]; exact hn

/-- C1 (amended): For every call `go_to_cartesian_pos(target_pos, timeout,
tolerance)` on an attached mount (any trace with a positive per-step clock
increment), inverse kinematics is solved exactly once, and the call returns
`True` exactly when the Euclidean distance between the end-effector's
cartesian position and `target_pos` falls below `tolerance` at the first
check at which either the tolerance is met or the simulated clock has used
up `timeout` — the final step may land up to one step beyond
`start + timeout` and still count as success; when the loop exhausts the
budget without reaching tolerance the call returns `False` and does not
raise (the model's function is total). -/
theorem mount_go_to_success_characterization (tr : MountTrace)
    (target : Vec3) (timeout tol : ℚ) (hdt : 0 < tr.dt) :
    ((go_to_cartesian_pos tr target timeout tol).success = true ↔
      ∃ n, reachedAt tr target tol n = true ∧
        ∀ m, m < n → reachedAt tr target tol m = false ∧
          timeAt tr m < tr.t0 + timeout) ∧
    (go_to_cartesian_pos tr target timeout tol).ikSolves = 1 :=
  ⟨goTo_success_iff tr target timeout tol hdt, rfl⟩

/-- Trace and target on which the literal reading of C1 fails: start time 0,
step 0.6 s, timeout 1 s; the end-effector sits at distance 1 for the first
two checks and lands on the target from the second step on, i.e. first
within tolerance at simulated time 1.2 s > 1 s. -/
def ceTrace : MountTrace :=
  ⟨0, 3/5, fun n => if n < 2 then ⟨1, 0, 0⟩ else ⟨0, 0, 0⟩⟩

def ceTarget : Vec3 := ⟨0, 0, 0⟩

/-- C1 (counterexample): on `ceTrace` the call returns `True`, yet there is
no step at which the distance is below tolerance while the simulated clock
is still at most `start + timeout`: the tolerance is first met one step past
the budget, and the final re-check after the loop still reports success.
Hence "returns true exactly when the distance falls below tolerance before
cumulative simulated time exceeds the start time plus timeout" is false of
the code as stated. -/
theorem mount_go_to_timeout_boundary_counterexample :
    (go_to_cartesian_pos ceTrace ceTarget 1 (1/1000)).success = true ∧
    ¬ ∃ n, reachedAt ceTrace ceTarget (1/1000) n = true ∧
      timeAt ceTrace n ≤ ceTrace.t0 + 1 := by
  constructor
  · rw [goTo_success_iff ceTrace ceTarget 1 (1/1000) (by norm_num [ceTrace])]
    refine ⟨2, ?_, ?_⟩
    · simp only [reachedAt, ceTrace, ceTarget, dist2, decide_eq_true_eq]
      norm_num
    · intro i hi
      interval_cases i <;>
        simp only [reachedAt, timeAt, ceTrace, ceTarget, dist2,
          decide_eq_false_iff_not] <;> norm_num
  · rintro ⟨n, hr, ht⟩
    rcases n with _ | _ | k
    · simp only [reachedAt, ceTrace, ceTarget, dist2, decide_eq_true_eq]
        at hr
      norm_num at hr
    · simp only [reachedAt, ceTrace, ceTarget, dist2, decide_eq_true_eq]
        at hr
      norm_num at hr
    · simp only [timeAt, ceTrace] at ht
      push_cast at ht
      nlinarith [Nat.cast_nonneg (α := ℚ) k]

/-- Trace for the witnesses of C1 and C9: the end-effector already sits on
the target, with pybullet's default step of 1/240 s. -/
def witTrace : MountTrace := ⟨0, 1/240, fun _ => ⟨0, 0, 0⟩⟩

def witTarget : Vec3 := ⟨0, 0, 0⟩

/-- Witness for the amended C1 on `witTrace`. -/
theorem mount_go_to_success_characterization_witness :
    (0 : ℚ) < witTrace.dt ∧
    (((go_to_cartesian_pos witTrace witTarget 5 (1/1000)).success = true ↔
        ∃ n, reachedAt witTrace witTarget (1/1000) n = true ∧
          ∀ m, m < n → reachedAt witTrace witTarget (1/1000) m = false ∧
            timeAt witTrace m < witTrace.t0 + 5) ∧
      (go_to_cartesian_pos witTrace witTarget 5 (1/1000)).ikSolves = 1) :=
  ⟨by norm_num [witTrace],
   mount_go_to_success_characterization witTrace witTarget 5 (1/1000)
     (by norm_num [witTrace])⟩

/-- C9: If, at the moment `go_to_cartesian_pos` issues its joint commands,
the end-effector's cartesian position is already within tolerance of the
target, the call returns `True` with zero `simulator.step()` calls, i.e.
without advancing simulated time by any step (and with the single IK
solve). -/
theorem go_to_returns_true_without_stepping (tr : MountTrace)
    (target : Vec3) (timeout tol : ℚ)
    (h : reachedAt tr target tol 0 = true) :
    go_to_cartesian_pos tr target timeout tol =
      { success := true, stepsTaken := 0, ikSolves := 1 } := by
  have hstop : goToStop tr target tol timeout 0 = true := by
    unfold goToStop; rw [h]; simp
  unfold go_to_cartesian_pos
  simp [goToLoop, hstop, h]

/-- Witness for C9 on `witTrace`. -/
theorem go_to_returns_true_without_stepping_witness :
    reachedAt witTrace witTarget (1/1000) 0 = true ∧
    go_to_cartesian_pos witTrace witTarget 5 (1/1000) =
      { success := true, stepsTaken := 0, ikSolves := 1 } := by
  have hr : reachedAt witTrace witTarget (1/1000) 0 = true := by
    simp only [reachedAt, witTrace, witTarget, dist2, decide_eq_true_eq]
    norm_num
  exact ⟨hr, go_to_returns_true_without_stepping witTrace witTarget 5
    (1/1000) hr⟩

end BurgToolkit
